import Mathlib

/-
  Verification development for the xo-math geometric kernel.

  Shallow embedding over the real numbers of the scalar-path semantics of:
    - Vector2 (src/xo-math/include/Vector2.h, Vector2Methods.h)
    - Vector3 (src/Vector3.h; SIMD lane-masked reductions are embedded as
      plain three-component reductions, which is exactly what the mask
      computes)
    - Vector4 / Matrix4x4 (src/xo-math/include/Matrix4x4Methods.h)
    - Quaternion (src/xo-math/src/Quaternion.cpp)

  Float arithmetic is idealized as exact real arithmetic; the epsilon
  constants and all branch structure are translated verbatim from the
  source.
-/

namespace XoMath

/-- Modelled from the spec: the scalar support header that defines
`FloatEpsilon` is not among the analyzed sources; the spec describes it as
the float closeness epsilon, i.e. the IEEE-754 single precision machine
epsilon 2^-23. -/
noncomputable def FloatEpsilon : Real := 1 / 8388608

/-- Modelled from the spec: scalar support closeness predicate
`CloseEnough(x, y, tolerance)`, true when the two scalars are within the
tolerance of one another. -/
def CloseEnough (x y tolerance : Real) : Prop := |y - x| < tolerance

/-- Modelled from the spec: scalar support function `ATan2` with the C
library `atan2(y, x)` semantics (quadrant-correct arctangent). -/
noncomputable def ATan2 (y x : Real) : Real :=
  if 0 < x then Real.arctan (y / x)
  else if x < 0 then
    (if 0 ≤ y then Real.arctan (y / x) + Real.pi
     else Real.arctan (y / x) - Real.pi)
  else
    (if 0 < y then Real.pi / 2 else if y < 0 then -(Real.pi / 2) else 0)

/-- Modelled from the spec: degree-to-radian conversion constant,
`degrees × (π/180)`. -/
noncomputable def Deg2Rad : Real := Real.pi / 180

/-- Modelled from the spec: radian-to-degree conversion constant. -/
noncomputable def Rad2Deg : Real := 180 / Real.pi

/-- Vector2 data model: `(x, y)` floats (src/xo-math/include/Vector2.h). -/
@[ext]
structure Vector2 where
  x : Real
  y : Real

namespace Vector2

/-- Vector2::Epsilon = FloatEpsilon * 2.0f (src/xo-math/include/Vector2.h). -/
noncomputable def Epsilon : Real := FloatEpsilon * 2

/-- The Vector2 default constructor `Vector2::Vector2() {}` has an empty
body ("No initialization is done" per the header comment): the constructed
object keeps whatever value its storage already held. -/
def defaultCtor (pre : Vector2) : Vector2 := pre

/-- The two-argument constructor `Vector2(float x, float y)` initializes
both members regardless of the prior storage contents. -/
def ctorXY (_pre : Vector2) (x y : Real) : Vector2 := ⟨x, y⟩

def add (a b : Vector2) : Vector2 := ⟨a.x + b.x, a.y + b.y⟩

def sub (a b : Vector2) : Vector2 := ⟨a.x - b.x, a.y - b.y⟩

def smul (a : Vector2) (c : Real) : Vector2 := ⟨a.x * c, a.y * c⟩

/-- Vector2::MagnitudeSquared (src/xo-math/include/Vector2Methods.h:44). -/
def MagnitudeSquared (v : Vector2) : Real := v.x * v.x + v.y * v.y

/-- Vector2::Magnitude (src/xo-math/include/Vector2Methods.h:40). -/
noncomputable def Magnitude (v : Vector2) : Real :=
  Real.sqrt (v.MagnitudeSquared)

open Classical in
/-- Vector2::Normalize / Normalized (src/xo-math/include/Vector2Methods.h:48):
two CloseEnough guards on the squared magnitude, then division of both
components by the magnitude. -/
noncomputable def Normalized (v : Vector2) : Vector2 :=
  if CloseEnough v.MagnitudeSquared 1 Epsilon then v
  else if CloseEnough v.MagnitudeSquared 0 Epsilon then v
  else ⟨v.x / Real.sqrt v.MagnitudeSquared, v.y / Real.sqrt v.MagnitudeSquared⟩

/-- Vector2::Dot (src/xo-math/include/Vector2Methods.h:73). -/
def Dot (a b : Vector2) : Real := a.x * b.x + a.y * b.y

/-- Vector2::Cross (src/xo-math/include/Vector2Methods.h:77). -/
def Cross (a b : Vector2) : Real := a.x * b.y - a.y * b.x

/-- Vector2::AngleRadians (src/xo-math/include/Vector2Methods.h:82):
`-ATan2(Cross(a, b), Dot(a, b))`. -/
noncomputable def AngleRadians (a b : Vector2) : Real :=
  -(ATan2 (Cross a b) (Dot a b))

/-- Vector2::AngleDegrees (src/xo-math/include/Vector2Methods.h:86). -/
noncomputable def AngleDegrees (a b : Vector2) : Real :=
  AngleRadians a b * Rad2Deg

open Classical in
/-- Vector2::Lerp (src/xo-math/include/Vector2Methods.h:106): epsilon
gates on `t` near 0 and near 1, otherwise `a + (b - a) * t`. -/
noncomputable def Lerp (a b : Vector2) (t : Real) : Vector2 :=
  if CloseEnough t 0 Epsilon then a
  else if CloseEnough t 1 Epsilon then b
  else add a (smul (sub b a) t)

def UnitX : Vector2 := ⟨1, 0⟩

def UnitY : Vector2 := ⟨0, 1⟩

end Vector2

/-- Vector3 data model: `(x, y, z)` floats; the stored fourth SIMD lane is
masked out of every reduction in the source, so the embedding carries only
the three live components (src/Vector3.h). -/
@[ext]
structure Vector3 where
  x : Real
  y : Real
  z : Real

namespace Vector3

/-- Vector3::Epsilon = FloatEpsilon+FloatEpsilon+FloatEpsilon
(src/Vector3.h:13). -/
noncomputable def Epsilon : Real := FloatEpsilon + FloatEpsilon + FloatEpsilon

/-- The Vector3 default constructor zeroes the whole register:
`Vector3() : m(_mm_setzero_ps())` (src/Vector3.h:15). -/
def defaultCtor (_pre : Vector3) : Vector3 := ⟨0, 0, 0⟩

/-- The three-argument constructor `Vector3(float x, float y, float z)`
(src/Vector3.h:19). -/
def ctorXYZ (_pre : Vector3) (x y z : Real) : Vector3 := ⟨x, y, z⟩

def add (a b : Vector3) : Vector3 := ⟨a.x + b.x, a.y + b.y, a.z + b.z⟩

def sub (a b : Vector3) : Vector3 := ⟨a.x - b.x, a.y - b.y, a.z - b.z⟩

def smul (a : Vector3) (c : Real) : Vector3 := ⟨a.x * c, a.y * c, a.z * c⟩

/-- Vector3::MagnitudeSquared (src/Vector3.h:99): lane-masked sum of
squares, i.e. x²+y²+z². -/
def MagnitudeSquared (v : Vector3) : Real :=
  v.x * v.x + v.y * v.y + v.z * v.z

/-- Vector3::Magnitude (src/Vector3.h:92). -/
noncomputable def Magnitude (v : Vector3) : Real :=
  Real.sqrt (v.MagnitudeSquared)

open Classical in
/-- Vector3::Normalize / Normalized (src/Vector3.h:106): first guard is the
one-sided test `magnitudeSquared - 1.0f <= Epsilon`, second guard is
`Sqrt(magnitudeSquared) < Epsilon`, otherwise scale by the reciprocal
norm. -/
noncomputable def Normalized (v : Vector3) : Vector3 :=
  if v.MagnitudeSquared - 1 ≤ Epsilon then v
  else if Real.sqrt v.MagnitudeSquared < Epsilon then v
  else v.smul (1 / Real.sqrt v.MagnitudeSquared)

/-- Vector3::Dot (src/Vector3.h:160): lane-masked product sum. -/
def Dot (a b : Vector3) : Real := a.x * b.x + a.y * b.y + a.z * b.z

/-- Vector3::Cross (src/Vector3.h:167): the shuffle/multiply/subtract
sequence computes the standard 3D cross product in the three live lanes. -/
def Cross (a b : Vector3) : Vector3 :=
  ⟨a.y * b.z - a.z * b.y, a.z * b.x - a.x * b.z, a.x * b.y - a.y * b.x⟩

/-- Vector3::AngleRadians (src/Vector3.h:173): the shuffle sequence
recomputes the cross product, squares it lane-masked and sums, so the
first ATan2 argument is `Sqrt(|Cross(a,b)|²) + Epsilon`; the second is
`Dot(a, b)`. -/
noncomputable def AngleRadians (a b : Vector3) : Real :=
  ATan2 (Real.sqrt ((Cross a b).MagnitudeSquared) + Epsilon) (Dot a b)

/-- Vector3::AngleDegrees (src/Vector3.h:184). -/
noncomputable def AngleDegrees (a b : Vector3) : Real :=
  AngleRadians a b * Rad2Deg

/-- Vector3::Lerp (src/Vector3.h:196): `a + ((b - a) * t)`, no guards. -/
def Lerp (a b : Vector3) (t : Real) : Vector3 :=
  add a (smul (sub b a) t)

def Up : Vector3 := ⟨0, 1, 0⟩

end Vector3

/-- Vector4 data model: `(x, y, z, w)` floats, the uniform 4-wide storage
used by Matrix4x4 rows and Quaternion. -/
@[ext]
structure Vector4 where
  x : Real
  y : Real
  z : Real
  w : Real

/-- Matrix4x4 data model: four Vector4 rows, row-major
(src/xo-math/include/Matrix4x4Methods.h). -/
@[ext]
structure Matrix4x4 where
  r0 : Vector4
  r1 : Vector4
  r2 : Vector4
  r3 : Vector4

/-- Quaternion data model: `(x, y, z, w)` floats, `(x,y,z)` the vector part
and `w` the scalar part (src/xo-math/src/Quaternion.cpp). -/
@[ext]
structure Quaternion where
  x : Real
  y : Real
  z : Real
  w : Real

namespace Matrix4x4

/-- The Matrix4x4 default constructor `Matrix4x4::Matrix4x4() {}` has an
empty body, delegating to the Vector4 default constructors of its rows
(src/xo-math/include/Matrix4x4Methods.h:34); no member receives a value
in this translation unit, so the constructed object keeps the prior
storage contents. -/
def defaultCtor (pre : Matrix4x4) : Matrix4x4 := pre

/-- The sixteen-argument constructor assigns every row
(src/xo-math/include/Matrix4x4Methods.h:51). -/
def ctorRows (_pre : Matrix4x4) (r0 r1 r2 r3 : Vector4) : Matrix4x4 :=
  ⟨r0, r1, r2, r3⟩

/-- Row-times-column inner product helper for the matrix product. -/
def rcDot (r : Vector4) (c0 c1 c2 c3 : Real) : Real :=
  r.x * c0 + r.y * c1 + r.z * c2 + r.w * c3

/-- Modelled from the spec: `operator*` between two matrices is the
standard row-times-column matrix product (the operators header is not
among the analyzed sources), and `m *= a` is `m = m * a`. -/
def mul (a b : Matrix4x4) : Matrix4x4 :=
  ⟨⟨rcDot a.r0 b.r0.x b.r1.x b.r2.x b.r3.x,
    rcDot a.r0 b.r0.y b.r1.y b.r2.y b.r3.y,
    rcDot a.r0 b.r0.z b.r1.z b.r2.z b.r3.z,
    rcDot a.r0 b.r0.w b.r1.w b.r2.w b.r3.w⟩,
   ⟨rcDot a.r1 b.r0.x b.r1.x b.r2.x b.r3.x,
    rcDot a.r1 b.r0.y b.r1.y b.r2.y b.r3.y,
    rcDot a.r1 b.r0.z b.r1.z b.r2.z b.r3.z,
    rcDot a.r1 b.r0.w b.r1.w b.r2.w b.r3.w⟩,
   ⟨rcDot a.r2 b.r0.x b.r1.x b.r2.x b.r3.x,
    rcDot a.r2 b.r0.y b.r1.y b.r2.y b.r3.y,
    rcDot a.r2 b.r0.z b.r1.z b.r2.z b.r3.z,
    rcDot a.r2 b.r0.w b.r1.w b.r2.w b.r3.w⟩,
   ⟨rcDot a.r3 b.r0.x b.r1.x b.r2.x b.r3.x,
    rcDot a.r3 b.r0.y b.r1.y b.r2.y b.r3.y,
    rcDot a.r3 b.r0.z b.r1.z b.r2.z b.r3.z,
    rcDot a.r3 b.r0.w b.r1.w b.r2.w b.r3.w⟩⟩

/-- Matrix4x4::Matrix4x4(const Quaternion&)
(src/xo-math/include/Matrix4x4Methods.h:84): rotation-only matrix built
from doubled quaternion products; the last row is Vector4::UnitW. -/
def ofQuaternion (q : Quaternion) : Matrix4x4 :=
  let q2x := q.x + q.x
  let q2y := q.y + q.y
  let q2z := q.z + q.z
  let qq2x := q.x * q2x
  let qq2y := q.y * q2y
  let qq2z := q.z * q2z
  let wq2x := q2x * q.w
  let wq2y := q2y * q.w
  let wq2z := q2z * q.w
  let xy2 := q.x * q2y
  let xz2 := q.x * q2z
  let yz2 := q.y * q2z
  ⟨⟨1 - qq2y - qq2z, xy2 + wq2z, xz2 - wq2y, 0⟩,
   ⟨xy2 - wq2z, 1 - qq2x - qq2z, yz2 + wq2x, 0⟩,
   ⟨xz2 + wq2y, yz2 - wq2x, 1 - qq2x - qq2y, 0⟩,
   ⟨0, 0, 0, 1⟩⟩

/-- Matrix4x4::RotationXRadians (src/xo-math/include/Matrix4x4Methods.h:187). -/
noncomputable def RotationXRadians (radians : Real) : Matrix4x4 :=
  ⟨⟨1, 0, 0, 0⟩,
   ⟨0, Real.cos radians, -Real.sin radians, 0⟩,
   ⟨0, Real.sin radians, Real.cos radians, 0⟩,
   ⟨0, 0, 0, 1⟩⟩

/-- Matrix4x4::RotationYRadians (src/xo-math/include/Matrix4x4Methods.h:199). -/
noncomputable def RotationYRadians (radians : Real) : Matrix4x4 :=
  ⟨⟨Real.cos radians, 0, -Real.sin radians, 0⟩,
   ⟨0, 1, 0, 0⟩,
   ⟨Real.sin radians, 0, Real.cos radians, 0⟩,
   ⟨0, 0, 0, 1⟩⟩

/-- Matrix4x4::RotationZRadians (src/xo-math/include/Matrix4x4Methods.h:210). -/
noncomputable def RotationZRadians (radians : Real) : Matrix4x4 :=
  ⟨⟨Real.cos radians, -Real.sin radians, 0, 0⟩,
   ⟨Real.sin radians, Real.cos radians, 0, 0⟩,
   ⟨0, 0, 1, 0⟩,
   ⟨0, 0, 0, 1⟩⟩

/-- Matrix4x4::RotationRadians (src/xo-math/include/Matrix4x4Methods.h:221):
assigns the Y rotation to the accumulator `m` and then performs
`m *= mx * mz`, i.e. the composition is `Ry * (Rx * Rz)`. -/
noncomputable def RotationRadians (x y z : Real) : Matrix4x4 :=
  (RotationYRadians y).mul ((RotationXRadians x).mul (RotationZRadians z))

/-- Matrix4x4::AxisAngleRadians (src/xo-math/include/Matrix4x4Methods.h:237):
Rodrigues rotation matrix. -/
noncomputable def AxisAngleRadians (a : Vector3) (radians : Real) : Matrix4x4 :=
  let c := Real.cos radians
  let s := Real.sin radians
  let t := 1 - c
  ⟨⟨t * a.x * a.x + c, t * a.x * a.y - a.z * s, t * a.x * a.z + a.y * s, 0⟩,
   ⟨t * a.x * a.y + a.z * s, t * a.y * a.y + c, t * a.y * a.z - a.x * s, 0⟩,
   ⟨t * a.x * a.z - a.y * s, t * a.y * a.z + a.x * s, t * a.z * a.z + c, 0⟩,
   ⟨0, 0, 0, 1⟩⟩

/-- Matrix4x4::RotationXDegrees (src/xo-math/include/Matrix4x4Methods.h:252). -/
noncomputable def RotationXDegrees (degrees : Real) : Matrix4x4 :=
  RotationXRadians (degrees * Deg2Rad)

/-- Matrix4x4::RotationYDegrees (src/xo-math/include/Matrix4x4Methods.h:256). -/
noncomputable def RotationYDegrees (degrees : Real) : Matrix4x4 :=
  RotationYRadians (degrees * Deg2Rad)

/-- Matrix4x4::RotationZDegrees (src/xo-math/include/Matrix4x4Methods.h:260). -/
noncomputable def RotationZDegrees (degrees : Real) : Matrix4x4 :=
  RotationZRadians (degrees * Deg2Rad)

/-- Matrix4x4::RotationDegrees (src/xo-math/include/Matrix4x4Methods.h:264):
`m = m0 * m1 * m2`, i.e. the composition is `(Rx * Ry) * Rz` — a different
order than RotationRadians. -/
noncomputable def RotationDegrees (x y z : Real) : Matrix4x4 :=
  ((RotationXDegrees x).mul (RotationYDegrees y)).mul (RotationZDegrees z)

/-- Matrix4x4::AxisAngleDegrees (src/xo-math/include/Matrix4x4Methods.h:281). -/
noncomputable def AxisAngleDegrees (a : Vector3) (degrees : Real) : Matrix4x4 :=
  AxisAngleRadians a (degrees * Deg2Rad)

/-- Condition under which the XO_ASSERT fail-fast hook fires in
Matrix4x4::OrthographicProjection
(src/xo-math/include/Matrix4x4Methods.h:286): `XO_ASSERT(w != 0.0f)` and
`XO_ASSERT(h != 0.0f)` fire exactly when their condition is false. -/
def orthoAssertFires (w h _n _f : Real) : Prop := w = 0 ∨ h = 0

/-- Matrix4x4::OrthographicProjection matrix
(src/xo-math/include/Matrix4x4Methods.h:285). -/
noncomputable def OrthographicProjection (w h n f : Real) : Matrix4x4 :=
  ⟨⟨1 / w, 0, 0, 0⟩,
   ⟨0, 1 / h, 0, 0⟩,
   ⟨0, 0, f - n, 0⟩,
   ⟨0, 0, n * (f - n), 1⟩⟩

/-- Condition under which the XO_ASSERT fail-fast hook fires in
Matrix4x4::PerspectiveProjectionRadians
(src/xo-math/include/Matrix4x4Methods.h:297): `XO_ASSERT(n != f)` fires
exactly when `n = f`. -/
def perspAssertFires (_fovx _fovy n f : Real) : Prop := n = f

/-- Matrix4x4::PerspectiveProjectionRadians matrix
(src/xo-math/include/Matrix4x4Methods.h:296); `ATan` is the scalar
arctangent support function. -/
noncomputable def PerspectiveProjectionRadians (fovx fovy n f : Real) : Matrix4x4 :=
  ⟨⟨Real.arctan (fovx / 2), 0, 0, 0⟩,
   ⟨0, Real.arctan (fovy / 2), 0, 0⟩,
   ⟨0, 0, f / (f - n), 1⟩,
   ⟨0, 0, -n * (f / -n), 1⟩⟩

/-- Matrix4x4::PerspectiveProjectionDegrees
(src/xo-math/include/Matrix4x4Methods.h:306). -/
noncomputable def PerspectiveProjectionDegrees (fovx fovy n f : Real) : Matrix4x4 :=
  PerspectiveProjectionRadians (fovx * Deg2Rad) (fovy * Deg2Rad) n f

end Matrix4x4

namespace Quaternion

/-- Quaternion::Epsilon = FloatEpsilon * 4.0f
(src/xo-math/src/Quaternion.cpp:31). -/
noncomputable def Epsilon : Real := FloatEpsilon * 4

/-- xo_internal::QuaternionSquareSum (src/xo-math/src/Quaternion.cpp:40). -/
def SquareSum (q : Quaternion) : Real :=
  q.x * q.x + q.y * q.y + q.z * q.z + q.w * q.w

/-- The Quaternion default constructor `Quaternion::Quaternion() {}` has
an empty body (src/xo-math/src/Quaternion.cpp:53): the constructed object
keeps whatever value its storage already held. -/
def defaultCtor (pre : Quaternion) : Quaternion := pre

/-- The four-argument constructor `Quaternion(float x, float y, float z,
float w)` assigns every component (src/xo-math/src/Quaternion.cpp:135). -/
def ctorXYZW (_pre : Quaternion) (x y z w : Real) : Quaternion :=
  ⟨x, y, z, w⟩

/-- Componentwise negation, used only to state the double-cover claim. -/
def neg (q : Quaternion) : Quaternion := ⟨-q.x, -q.y, -q.z, -q.w⟩

/-- Componentwise closeness of two quaternions within a tolerance, the
claim-side reading of "each component within Epsilon". -/
def closeWithin (a b : Quaternion) (tol : Real) : Prop :=
  |a.x - b.x| < tol ∧ |a.y - b.y| < tol ∧ |a.z - b.z| < tol ∧ |a.w - b.w| < tol

/-- The trace-dominant branch of the extraction
(src/xo-math/src/Quaternion.cpp:94-102): `s = 0.5/√trace`, the macro
`_XO_ASSIGN_QUAT(W, X, Y, Z)` assigns its arguments to `w, x, y, z` in
that order (modelled from the spec for the macro, which is defined
outside the analyzed sources: the spec's axis-angle formula fixes the
first macro slot as the scalar part and the remaining three as the
`x, y, z` vector parts). -/
noncomputable def traceDominant (xAxis yAxis zAxis : Vector3) : Quaternion :=
  let s := 0.5 / Real.sqrt (xAxis.x + yAxis.y + zAxis.z + 1)
  ⟨(yAxis.z - zAxis.y) * s, (xAxis.y - yAxis.x) * s,
   (zAxis.x - xAxis.z) * s, 0.25 / s⟩

open Classical in
/-- The diagonal-dominant branches of the extraction
(src/xo-math/src/Quaternion.cpp:103-132), selected on the largest of the
rescaled diagonal entries; macro slot order as in `traceDominant`. -/
noncomputable def diagDominant (xAxis yAxis zAxis : Vector3) : Quaternion :=
  if xAxis.x > yAxis.y ∧ xAxis.x > zAxis.z then
    let s := 0.5 / Real.sqrt (1 + xAxis.x - yAxis.y - zAxis.z)
    ⟨0.25 / s, (zAxis.x + xAxis.z) * s,
     (yAxis.x + xAxis.y) * s, (yAxis.z - zAxis.y) * s⟩
  else if yAxis.y > zAxis.z then
    let s := 0.5 / Real.sqrt (1 + yAxis.y - xAxis.x - zAxis.z)
    ⟨(yAxis.x + xAxis.y) * s, (zAxis.y + yAxis.z) * s,
     0.25 / s, (zAxis.x - xAxis.z) * s⟩
  else
    let s := 0.5 / Real.sqrt (1 + zAxis.z - xAxis.x - yAxis.y)
    ⟨(zAxis.x + xAxis.z) * s, 0.25 / s,
     (zAxis.y + yAxis.z) * s, (xAxis.y - yAxis.x) * s⟩

open Classical in
/-- The trace-based extraction applied to the three rescaled axis rows in
Quaternion::Quaternion(const Matrix4x4&)
(src/xo-math/src/Quaternion.cpp:92): `trace = xAxis.x + yAxis.y +
zAxis.z + 1`, trace-dominant branch when `trace > 1.0f`, else one of the
diagonal-dominant branches. -/
noncomputable def fromAxes (xAxis yAxis zAxis : Vector3) : Quaternion :=
  if 1 < xAxis.x + yAxis.y + zAxis.z + 1 then traceDominant xAxis yAxis zAxis
  else diagDominant xAxis yAxis zAxis

/-- Degenerate-scale test of Quaternion::Quaternion(const Matrix4x4&)
(src/xo-math/src/Quaternion.cpp:67): some axis row magnitude is at or
below FloatEpsilon. -/
def degenerateScale (mat : Matrix4x4) : Prop :=
  Vector3.Magnitude ⟨mat.r0.x, mat.r0.y, mat.r0.z⟩ ≤ FloatEpsilon ∨
  Vector3.Magnitude ⟨mat.r1.x, mat.r1.y, mat.r1.z⟩ ≤ FloatEpsilon ∨
  Vector3.Magnitude ⟨mat.r2.x, mat.r2.y, mat.r2.z⟩ ≤ FloatEpsilon

open Classical in
/-- Quaternion::Quaternion(const Matrix4x4&)
(src/xo-math/src/Quaternion.cpp:57), scalar path: per-axis scale from the
row magnitudes, identity quaternion on degenerate scale, otherwise each
axis row is scaled by the reciprocal of its magnitude and the trace-based
extraction runs. -/
noncomputable def ofMatrix (mat : Matrix4x4) : Quaternion :=
  let xAxis : Vector3 := ⟨mat.r0.x, mat.r0.y, mat.r0.z⟩
  let yAxis : Vector3 := ⟨mat.r1.x, mat.r1.y, mat.r1.z⟩
  let zAxis : Vector3 := ⟨mat.r2.x, mat.r2.y, mat.r2.z⟩
  if degenerateScale mat then ⟨0, 0, 0, 1⟩
  else
    fromAxes (xAxis.smul (1 / xAxis.Magnitude))
             (yAxis.smul (1 / yAxis.Magnitude))
             (zAxis.smul (1 / zAxis.Magnitude))

/-- Quaternion::AxisAngleRadians (src/xo-math/src/Quaternion.cpp:236):
`hr = radians * 0.5; sr = Sin(hr); n = axis.Normalized() * sr;` then the
assignment macro receives `(Cos(radians), n.x, n.y, n.z)`, so the scalar
part is the cosine of the full angle. -/
noncomputable def AxisAngleRadians (axis : Vector3) (radians : Real) : Quaternion :=
  let sr := Real.sin (radians * 0.5)
  let n := (axis.Normalized).smul sr
  ⟨n.x, n.y, n.z, Real.cos radians⟩

/-- Quaternion::LookAtFromDirection(direction, up, outQuat)
(src/xo-math/src/Quaternion.cpp:256): the body is empty (`// Todo`), so
the out-parameter is returned unchanged. -/
def LookAtFromDirectionUp (_direction _up : Vector3) (outQuat : Quaternion) : Quaternion :=
  outQuat

/-- Quaternion::LookAtFromPosition(from, to, up, outQuat)
(src/xo-math/src/Quaternion.cpp:246): delegates to LookAtFromDirection
with direction `to - from`. -/
def LookAtFromPositionUp (fromV toV up : Vector3) (outQuat : Quaternion) : Quaternion :=
  LookAtFromDirectionUp (Vector3.sub toV fromV) up outQuat

/-- Quaternion::LookAtFromPosition(from, to, outQuat)
(src/xo-math/src/Quaternion.cpp:251): delegates with Vector3::Up. -/
def LookAtFromPosition2 (fromV toV : Vector3) (outQuat : Quaternion) : Quaternion :=
  LookAtFromPositionUp fromV toV Vector3.Up outQuat

/-- Quaternion::LookAtFromDirection(direction, outQuat)
(src/xo-math/src/Quaternion.cpp:261): delegates with Vector3::Up. -/
def LookAtFromDirection1 (direction : Vector3) (outQuat : Quaternion) : Quaternion :=
  LookAtFromDirectionUp direction Vector3.Up outQuat

end Quaternion

/-! Theorems. -/

/-- C10: Quaternion::LookAtFromDirection(direction, up, outQuat) leaves
the out-parameter completely unchanged (its body is empty), and both
LookAtFromPosition overloads and the one-argument LookAtFromDirection
overload, which delegate to it, also never write their out-parameter. -/
theorem C10_lookAt_never_writes :
    (∀ (direction up : Vector3) (outQuat : Quaternion),
       Quaternion.LookAtFromDirectionUp direction up outQuat = outQuat) ∧
    (∀ (fromV toV up : Vector3) (outQuat : Quaternion),
       Quaternion.LookAtFromPositionUp fromV toV up outQuat = outQuat) ∧
    (∀ (fromV toV : Vector3) (outQuat : Quaternion),
       Quaternion.LookAtFromPosition2 fromV toV outQuat = outQuat) ∧
    (∀ (direction : Vector3) (outQuat : Quaternion),
       Quaternion.LookAtFromDirection1 direction outQuat = outQuat) :=
  ⟨fun _ _ _ => rfl, fun _ _ _ _ => rfl, fun _ _ _ => rfl, fun _ _ => rfl⟩

/-- C8: Quaternion::AxisAngleRadians(axis, radians) produces a quaternion
whose vector part is Normalized(axis) scaled by sin(radians/2) and whose
scalar part is cos(radians), the cosine of the full angle. -/
theorem C8_axisAngle_formula (axis : Vector3) (radians : Real) :
    Quaternion.AxisAngleRadians axis radians =
      ⟨(axis.Normalized).x * Real.sin (radians / 2),
       (axis.Normalized).y * Real.sin (radians / 2),
       (axis.Normalized).z * Real.sin (radians / 2),
       Real.cos radians⟩ := by
  have hhalf : radians * 0.5 = radians / 2 := by ring
  simp only [Quaternion.AxisAngleRadians, Vector3.smul, hhalf]

/-- C5 counterexample: the Vector2 default constructor performs no
initialization (its body is empty and the header states "No
initialization is done"), so the constructed components are whatever the
storage already held: two distinct pre-states yield two distinct
"constructed" objects, refuting "every constructor assigns a defined
value to every component". -/
theorem C5_counterexample :
    Vector2.defaultCtor ⟨1, 2⟩ = ⟨1, 2⟩ ∧
    Vector2.defaultCtor ⟨3, 4⟩ = ⟨3, 4⟩ ∧
    (⟨1, 2⟩ : Vector2) ≠ ⟨3, 4⟩ := by
  refine ⟨rfl, rfl, fun h => ?_⟩
  have hx : (1 : Real) = 3 := congrArg Vector2.x h
  norm_num at hx

/-- C5 amended: the value-taking constructors fully initialize their
object and Vector3's default constructor zero-initializes, but the
default constructors of Vector2 and Quaternion (and of Matrix4x4, whose
empty body only delegates to the Vector4 default constructors of its
rows) assign nothing, leaving the object exactly as the pre-construction
storage. -/
theorem C5_construction_initialization :
    (∀ pre : Vector2, Vector2.defaultCtor pre = pre) ∧
    (∀ pre : Quaternion, Quaternion.defaultCtor pre = pre) ∧
    (∀ pre : Matrix4x4, Matrix4x4.defaultCtor pre = pre) ∧
    (∀ pre : Vector3, Vector3.defaultCtor pre = ⟨0, 0, 0⟩) ∧
    (∀ (pre : Vector2) (x y : Real), Vector2.ctorXY pre x y = ⟨x, y⟩) ∧
    (∀ (pre : Vector3) (x y z : Real), Vector3.ctorXYZ pre x y z = ⟨x, y, z⟩) ∧
    (∀ (pre : Quaternion) (x y z w : Real),
       Quaternion.ctorXYZW pre x y z w = ⟨x, y, z, w⟩) ∧
    (∀ (pre : Matrix4x4) (r0 r1 r2 r3 : Vector4),
       Matrix4x4.ctorRows pre r0 r1 r2 r3 = ⟨r0, r1, r2, r3⟩) :=
  ⟨fun _ => rfl, fun _ => rfl, fun _ => rfl, fun _ => rfl,
   fun _ _ _ => rfl, fun _ _ _ _ => rfl, fun _ _ _ _ _ => rfl,
   fun _ _ _ _ _ => rfl⟩

/-- C9 counterexample: OrthographicProjection(1, 1, 2, 2) is called with
near == far, a case in which the claim says the assertion hook is raised,
yet neither of the factory's XO_ASSERT conditions (width zero, height
zero) is violated, so the hook does not fire. -/
theorem C9_counterexample :
    ¬ Matrix4x4.orthoAssertFires 1 1 2 2 ∧ (2 : Real) = 2 := by
  refine ⟨fun h => ?_, rfl⟩
  rcases h with h | h <;> norm_num at h

/-- C9 amended: OrthographicProjection raises the fail-fast hook exactly
when its width or height argument is zero (it performs no near/far
check), and PerspectiveProjectionRadians raises it exactly when near
equals far (it takes fields of view and has no width/height arguments);
neither raises it in any other case. -/
theorem C9_assert_conditions (w h n f : Real) :
    (Matrix4x4.orthoAssertFires w h n f ↔ w = 0 ∨ h = 0) ∧
    (Matrix4x4.perspAssertFires w h n f ↔ n = f) :=
  ⟨Iff.rfl, Iff.rfl⟩

/-- C6 counterexample: Vector2::Lerp epsilon-gates `t` near 0. At
`t = FloatEpsilon` (nonzero, within Vector2::Epsilon of 0) it returns `a`
exactly, while the claimed formula `a + (b - a) * t` gives a different
vector. -/
theorem C6_counterexample :
    Vector2.Lerp ⟨0, 0⟩ ⟨1, 0⟩ FloatEpsilon = ⟨0, 0⟩ ∧
    Vector2.add ⟨0, 0⟩ (Vector2.smul (Vector2.sub ⟨1, 0⟩ ⟨0, 0⟩) FloatEpsilon) =
      ⟨FloatEpsilon, 0⟩ ∧
    (⟨0, 0⟩ : Vector2) ≠ ⟨FloatEpsilon, 0⟩ := by
  refine ⟨?_, ?_, fun h => ?_⟩
  · unfold Vector2.Lerp
    rw [if_pos]
    unfold CloseEnough Vector2.Epsilon FloatEpsilon
    rw [abs_of_nonpos (by norm_num)]
    norm_num
  · unfold Vector2.add Vector2.smul Vector2.sub
    ext <;> norm_num
  · have hx : (0 : Real) = FloatEpsilon := congrArg Vector2.x h
    unfold FloatEpsilon at hx
    norm_num at hx

/-- C6 amended: Vector3::Lerp is exactly `a + (b - a) * t` for every `t`
(no gating), and the identities Lerp(a,b,0)=a, Lerp(a,b,1)=b,
Lerp(a,a,t)=a hold for both types; Vector2::Lerp, however, first returns
`a` exactly when `t` is within Vector2::Epsilon of 0, then returns `b`
exactly when `t` is within Epsilon of 1, and only otherwise evaluates
`a + (b - a) * t`. -/
theorem C6_lerp_behavior :
    (∀ (a b : Vector3) (t : Real),
       Vector3.Lerp a b t = Vector3.add a (Vector3.smul (Vector3.sub b a) t)) ∧
    (∀ a b : Vector3, Vector3.Lerp a b 0 = a ∧ Vector3.Lerp a b 1 = b) ∧
    (∀ (a : Vector3) (t : Real), Vector3.Lerp a a t = a) ∧
    (∀ (a b : Vector2) (t : Real),
       (CloseEnough t 0 Vector2.Epsilon → Vector2.Lerp a b t = a) ∧
       (¬ CloseEnough t 0 Vector2.Epsilon → CloseEnough t 1 Vector2.Epsilon →
          Vector2.Lerp a b t = b) ∧
       (¬ CloseEnough t 0 Vector2.Epsilon → ¬ CloseEnough t 1 Vector2.Epsilon →
          Vector2.Lerp a b t = Vector2.add a (Vector2.smul (Vector2.sub b a) t))) ∧
    (∀ a b : Vector2, Vector2.Lerp a b 0 = a ∧ Vector2.Lerp a b 1 = b) ∧
    (∀ (a : Vector2) (t : Real), Vector2.Lerp a a t = a) := by
  have hzero : CloseEnough 0 0 Vector2.Epsilon := by
    unfold CloseEnough Vector2.Epsilon FloatEpsilon
    norm_num
  have hone : CloseEnough 1 1 Vector2.Epsilon := by
    unfold CloseEnough Vector2.Epsilon FloatEpsilon
    norm_num
  have honeNotZero : ¬ CloseEnough 1 0 Vector2.Epsilon := by
    unfold CloseEnough Vector2.Epsilon FloatEpsilon
    rw [abs_of_nonpos (by norm_num)]
    norm_num
  refine ⟨fun a b t => rfl, ?_, ?_, ?_, ?_, ?_⟩
  · intro a b
    constructor
    · unfold Vector3.Lerp Vector3.add Vector3.smul Vector3.sub
      ext <;> · simp only; ring
    · unfold Vector3.Lerp Vector3.add Vector3.smul Vector3.sub
      ext <;> · simp only; ring
  · intro a t
    unfold Vector3.Lerp Vector3.add Vector3.smul Vector3.sub
    ext <;> · simp only; ring
  · intro a b t
    refine ⟨fun h0 => ?_, fun h0 h1 => ?_, fun h0 h1 => ?_⟩
    · unfold Vector2.Lerp
      rw [if_pos h0]
    · unfold Vector2.Lerp
      rw [if_neg h0, if_pos h1]
    · unfold Vector2.Lerp
      rw [if_neg h0, if_neg h1]
  · intro a b
    constructor
    · unfold Vector2.Lerp
      rw [if_pos hzero]
    · unfold Vector2.Lerp
      rw [if_neg honeNotZero, if_pos hone]
  · intro a t
    unfold Vector2.Lerp
    by_cases h0 : CloseEnough t 0 Vector2.Epsilon
    · rw [if_pos h0]
    · rw [if_neg h0]
      by_cases h1 : CloseEnough t 1 Vector2.Epsilon
      · rw [if_pos h1]
      · rw [if_neg h1]
        unfold Vector2.add Vector2.smul Vector2.sub
        ext <;> · simp only; ring

/-- C6 witness: the ungated Vector2 branch evaluated at a concrete
interior parameter. -/
theorem C6_lerp_behavior_witness :
    Vector2.Lerp ⟨0, 0⟩ ⟨2, 0⟩ (1 / 2) =
      Vector2.add ⟨0, 0⟩ (Vector2.smul (Vector2.sub ⟨2, 0⟩ ⟨0, 0⟩) (1 / 2)) := by
  refine (C6_lerp_behavior.2.2.2.1 ⟨0, 0⟩ ⟨2, 0⟩ (1 / 2)).2.2 ?_ ?_
  · unfold CloseEnough Vector2.Epsilon FloatEpsilon
    rw [abs_of_nonpos (by norm_num)]
    norm_num
  · unfold CloseEnough Vector2.Epsilon FloatEpsilon
    rw [abs_of_nonneg (by norm_num)]
    norm_num

/-- C3 counterexample: a Vector3 of squared magnitude 1/4 — neither
within Epsilon of 1 nor within Epsilon of 0 — is returned unchanged by
Normalized, not rescaled, because the first guard in Vector3::Normalize
is the one-sided test `magnitudeSquared - 1.0f <= Epsilon`. -/
theorem C3_counterexample :
    Vector3.Normalized ⟨1 / 2, 0, 0⟩ = ⟨1 / 2, 0, 0⟩ ∧
    Vector3.MagnitudeSquared ⟨1 / 2, 0, 0⟩ = 1 / 4 ∧
    ¬ CloseEnough (1 / 4) 1 Vector3.Epsilon ∧
    ¬ CloseEnough (1 / 4) 0 Vector3.Epsilon ∧
    Vector3.smul ⟨1 / 2, 0, 0⟩
        (1 / Real.sqrt (Vector3.MagnitudeSquared ⟨1 / 2, 0, 0⟩)) ≠
      ⟨1 / 2, 0, 0⟩ := by
  have hms : Vector3.MagnitudeSquared ⟨1 / 2, 0, 0⟩ = 1 / 4 := by
    unfold Vector3.MagnitudeSquared
    norm_num
  have hsqrt : Real.sqrt (1 / 4) = 1 / 2 := by
    rw [show (1 / 4 : Real) = (1 / 2) ^ 2 by norm_num]
    exact Real.sqrt_sq (by norm_num)
  refine ⟨?_, hms, ?_, ?_, fun h => ?_⟩
  · unfold Vector3.Normalized
    rw [if_pos]
    rw [hms]
    unfold Vector3.Epsilon FloatEpsilon
    norm_num
  · unfold CloseEnough Vector3.Epsilon FloatEpsilon
    rw [abs_of_nonneg (by norm_num)]
    norm_num
  · unfold CloseEnough Vector3.Epsilon FloatEpsilon
    rw [abs_of_nonpos (by norm_num)]
    norm_num
  · rw [hms, hsqrt] at h
    have hx := congrArg Vector3.x h
    unfold Vector3.smul at hx
    norm_num at hx

/-- C3 amended: Vector2::Normalize behaves as the claim states (two-sided
CloseEnough guards near 1 and near 0, otherwise rescale); Vector3's first
guard, however, is the one-sided test `magnitudeSquared - 1 <= Epsilon`,
so every vector whose squared magnitude is at most 1 + Epsilon (including
squared magnitude 1/4) is passed through unchanged, and only vectors with
squared magnitude above 1 + Epsilon are rescaled by the reciprocal norm
(the near-zero guard is then unreachable). -/
theorem C3_normalize_guards :
    (∀ v : Vector2,
       (CloseEnough v.MagnitudeSquared 1 Vector2.Epsilon → v.Normalized = v) ∧
       (¬ CloseEnough v.MagnitudeSquared 1 Vector2.Epsilon →
          CloseEnough v.MagnitudeSquared 0 Vector2.Epsilon → v.Normalized = v) ∧
       (¬ CloseEnough v.MagnitudeSquared 1 Vector2.Epsilon →
          ¬ CloseEnough v.MagnitudeSquared 0 Vector2.Epsilon →
          v.Normalized = ⟨v.x / Real.sqrt v.MagnitudeSquared,
                          v.y / Real.sqrt v.MagnitudeSquared⟩)) ∧
    (∀ v : Vector3,
       (v.MagnitudeSquared - 1 ≤ Vector3.Epsilon → v.Normalized = v) ∧
       (¬ (v.MagnitudeSquared - 1 ≤ Vector3.Epsilon) →
          v.Normalized = v.smul (1 / Real.sqrt v.MagnitudeSquared))) := by
  constructor
  · intro v
    refine ⟨fun h1 => ?_, fun h1 h0 => ?_, fun h1 h0 => ?_⟩
    · unfold Vector2.Normalized
      rw [if_pos h1]
    · unfold Vector2.Normalized
      rw [if_neg h1, if_pos h0]
    · unfold Vector2.Normalized
      rw [if_neg h1, if_neg h0]
  · intro v
    refine ⟨fun h1 => ?_, fun h1 => ?_⟩
    · unfold Vector3.Normalized
      rw [if_pos h1]
    · have hgt : 1 < v.MagnitudeSquared := by
        push_neg at h1
        have heps : (0 : Real) < Vector3.Epsilon := by
          unfold Vector3.Epsilon FloatEpsilon
          norm_num
        linarith
      have hone : (1 : Real) ≤ Real.sqrt v.MagnitudeSquared := by
        rw [show (1 : Real) = Real.sqrt 1 by rw [Real.sqrt_one]]
        exact Real.sqrt_le_sqrt hgt.le
      have hnot : ¬ Real.sqrt v.MagnitudeSquared < Vector3.Epsilon := by
        have heps : Vector3.Epsilon < 1 := by
          unfold Vector3.Epsilon FloatEpsilon
          norm_num
        intro hcon
        linarith
      unfold Vector3.Normalized
      rw [if_neg h1, if_neg hnot]

/-- ATan2 with a positive first argument lies in (0, π]. -/
lemma ATan2_pos_le_pi (y x : Real) (hy : 0 < y) :
    0 < ATan2 y x ∧ ATan2 y x ≤ Real.pi := by
  have hpi := Real.pi_pos
  unfold ATan2
  rcases lt_trichotomy 0 x with hx | hx | hx
  · rw [if_pos hx]
    have hpos : 0 < Real.arctan (y / x) := by
      have harc := Real.arctan_strictMono (div_pos hy hx)
      rwa [Real.arctan_zero] at harc
    have hlt := Real.arctan_lt_pi_div_two (y / x)
    exact ⟨hpos, by linarith⟩
  · rw [if_neg (by rw [← hx]; exact lt_irrefl 0),
        if_neg (by rw [← hx]; exact lt_irrefl 0), if_pos hy]
    exact ⟨by linarith, by linarith⟩
  · rw [if_neg (by intro hcon; linarith), if_pos hx, if_pos hy.le]
    have hneg : Real.arctan (y / x) < 0 := by
      have harc := Real.arctan_strictMono (div_neg_of_pos_of_neg hy hx)
      rwa [Real.arctan_zero] at harc
    have hgt := Real.neg_pi_div_two_lt_arctan (y / x)
    exact ⟨by linarith, by linarith⟩

/-- Vector2::AngleDegrees at the unit axes evaluates to -90, since the
source negates ATan2 of the signed 2D cross product. -/
lemma angleDegrees_unitX_unitY :
    Vector2.AngleDegrees Vector2.UnitX Vector2.UnitY = -90 := by
  have hcross : Vector2.Cross Vector2.UnitX Vector2.UnitY = 1 := by
    unfold Vector2.Cross Vector2.UnitX Vector2.UnitY
    norm_num
  have hdot : Vector2.Dot Vector2.UnitX Vector2.UnitY = 0 := by
    unfold Vector2.Dot Vector2.UnitX Vector2.UnitY
    norm_num
  have hatan : ATan2 1 0 = Real.pi / 2 := by
    unfold ATan2
    rw [if_neg (lt_irrefl 0), if_neg (lt_irrefl 0), if_pos one_pos]
  unfold Vector2.AngleDegrees Vector2.AngleRadians Rad2Deg
  rw [hcross, hdot, hatan]
  have hpi := Real.pi_ne_zero
  field_simp
  ring

/-- C2 counterexample: Vector2::AngleDegrees(UnitX, UnitY) evaluates to
-90, not 90 within Epsilon as claimed, because Vector2::AngleRadians is
`-ATan2(Cross(a,b), Dot(a,b))` — a signed, negated angle — rather than
`atan2(|cross|, dot)`. -/
theorem C2_counterexample :
    Vector2.AngleDegrees Vector2.UnitX Vector2.UnitY = -90 ∧
    ¬ CloseEnough (Vector2.AngleDegrees Vector2.UnitX Vector2.UnitY) 90
        Vector2.Epsilon := by
  refine ⟨angleDegrees_unitX_unitY, fun h => ?_⟩
  unfold CloseEnough at h
  rw [angleDegrees_unitX_unitY] at h
  unfold Vector2.Epsilon FloatEpsilon at h
  rw [abs_of_nonneg (by norm_num)] at h
  norm_num at h

/-- C2 amended: Vector3::AngleRadians(a, b) returns
`ATan2(|Cross(a,b)| + Epsilon, Dot(a,b))` — the Epsilon is added to the
cross magnitude — and that value always lies in (0, π]; consequently
Vector3::AngleRadians(v, v) equals `ATan2(Epsilon, MagnitudeSquared(v))`
(near zero for non-tiny v, but not exactly zero). Vector2::AngleRadians
is the signed value `-ATan2(Cross(a,b), Dot(a,b))`, which can be
negative; in particular Vector2::AngleDegrees(UnitX, UnitY) = -90. -/
theorem C2_angle_functions :
    (∀ a b : Vector3,
       Vector3.AngleRadians a b =
         ATan2 ((Vector3.Cross a b).Magnitude + Vector3.Epsilon)
           (Vector3.Dot a b)) ∧
    (∀ a b : Vector3,
       0 < Vector3.AngleRadians a b ∧ Vector3.AngleRadians a b ≤ Real.pi) ∧
    (∀ a b : Vector2,
       Vector2.AngleRadians a b =
         -(ATan2 (Vector2.Cross a b) (Vector2.Dot a b))) ∧
    Vector2.AngleDegrees Vector2.UnitX Vector2.UnitY = -90 ∧
    (∀ v : Vector3,
       Vector3.AngleRadians v v =
         ATan2 Vector3.Epsilon (Vector3.MagnitudeSquared v)) := by
  refine ⟨fun a b => rfl, fun a b => ?_, fun a b => rfl,
    angleDegrees_unitX_unitY, fun v => ?_⟩
  · unfold Vector3.AngleRadians
    apply ATan2_pos_le_pi
    have h1 := Real.sqrt_nonneg ((Vector3.Cross a b).MagnitudeSquared)
    have h2 : (0 : Real) < Vector3.Epsilon := by
      unfold Vector3.Epsilon FloatEpsilon
      norm_num
    linarith
  · have hc : Vector3.Cross v v = ⟨0, 0, 0⟩ := by
      unfold Vector3.Cross
      ext <;> · simp only; ring
    unfold Vector3.AngleRadians
    rw [hc]
    have hms : Vector3.MagnitudeSquared ⟨0, 0, 0⟩ = 0 := by
      unfold Vector3.MagnitudeSquared
      norm_num
    rw [hms, Real.sqrt_zero, zero_add]
    rfl

/-- C3 witness: a vector with squared magnitude above 1 + Epsilon is
rescaled by the reciprocal norm. -/
theorem C3_normalize_guards_witness :
    Vector3.Normalized ⟨2, 0, 0⟩ =
      Vector3.smul ⟨2, 0, 0⟩
        (1 / Real.sqrt (Vector3.MagnitudeSquared ⟨2, 0, 0⟩)) := by
  refine (C3_normalize_guards.2 ⟨2, 0, 0⟩).2 ?_
  unfold Vector3.MagnitudeSquared Vector3.Epsilon FloatEpsilon
  norm_num

/-- Degrees-to-radians at 90 degrees is π/2. -/
lemma deg90_to_rad : (90 : Real) * Deg2Rad = Real.pi / 2 := by
  unfold Deg2Rad
  ring

/-- C4 counterexample: at (x, y, z) = (90, 90, 0),
Matrix4x4::RotationDegrees — which composes Rx·Ry·Rz — differs from
Matrix4x4::RotationRadians on the converted angles, which composes
Ry·(Rx·Rz): the two products disagree already in the first row. -/
theorem C4_counterexample :
    (Matrix4x4.RotationDegrees 90 90 0).r0.y = 0 ∧
    (Matrix4x4.RotationRadians ((90 : Real) * Deg2Rad) ((90 : Real) * Deg2Rad)
        ((0 : Real) * Deg2Rad)).r0.y = -1 ∧
    Matrix4x4.RotationDegrees 90 90 0 ≠
      Matrix4x4.RotationRadians ((90 : Real) * Deg2Rad) ((90 : Real) * Deg2Rad)
        ((0 : Real) * Deg2Rad) := by
  have h1 : (Matrix4x4.RotationDegrees 90 90 0).r0.y = 0 := by
    simp only [Matrix4x4.RotationDegrees, Matrix4x4.RotationXDegrees,
      Matrix4x4.RotationYDegrees, Matrix4x4.RotationZDegrees, deg90_to_rad,
      zero_mul, Matrix4x4.RotationXRadians, Matrix4x4.RotationYRadians,
      Matrix4x4.RotationZRadians, Real.cos_pi_div_two, Real.sin_pi_div_two,
      Real.cos_zero, Real.sin_zero, Matrix4x4.mul, Matrix4x4.rcDot]
    norm_num
  have h2 : (Matrix4x4.RotationRadians ((90 : Real) * Deg2Rad)
      ((90 : Real) * Deg2Rad) ((0 : Real) * Deg2Rad)).r0.y = -1 := by
    simp only [Matrix4x4.RotationRadians, deg90_to_rad, zero_mul,
      Matrix4x4.RotationXRadians, Matrix4x4.RotationYRadians,
      Matrix4x4.RotationZRadians, Real.cos_pi_div_two, Real.sin_pi_div_two,
      Real.cos_zero, Real.sin_zero, Matrix4x4.mul, Matrix4x4.rcDot]
    norm_num
  refine ⟨h1, h2, fun h => ?_⟩
  rw [h] at h1
  rw [h1] at h2
  norm_num at h2

/-- C4 amended: the single-axis rotations, AxisAngle and the perspective
projection do pair their degree variant with the radian variant through
the `degrees × (π/180)` conversion; but the combined factories compose in
different orders — RotationDegrees(x,y,z) is `(Rx · Ry) · Rz` over the
converted angles while RotationRadians(x,y,z) is `Ry · (Rx · Rz)` — so
RotationDegrees is not RotationRadians on the converted arguments. -/
theorem C4_degree_radian_pairs :
    (∀ d : Real,
       Matrix4x4.RotationXDegrees d = Matrix4x4.RotationXRadians (d * Deg2Rad)) ∧
    (∀ d : Real,
       Matrix4x4.RotationYDegrees d = Matrix4x4.RotationYRadians (d * Deg2Rad)) ∧
    (∀ d : Real,
       Matrix4x4.RotationZDegrees d = Matrix4x4.RotationZRadians (d * Deg2Rad)) ∧
    (∀ (a : Vector3) (d : Real),
       Matrix4x4.AxisAngleDegrees a d =
         Matrix4x4.AxisAngleRadians a (d * Deg2Rad)) ∧
    (∀ fovx fovy n f : Real,
       Matrix4x4.PerspectiveProjectionDegrees fovx fovy n f =
         Matrix4x4.PerspectiveProjectionRadians (fovx * Deg2Rad)
           (fovy * Deg2Rad) n f) ∧
    (∀ x y z : Real,
       Matrix4x4.RotationDegrees x y z =
         ((Matrix4x4.RotationXRadians (x * Deg2Rad)).mul
             (Matrix4x4.RotationYRadians (y * Deg2Rad))).mul
           (Matrix4x4.RotationZRadians (z * Deg2Rad))) ∧
    (∀ x y z : Real,
       Matrix4x4.RotationRadians x y z =
         (Matrix4x4.RotationYRadians y).mul
           ((Matrix4x4.RotationXRadians x).mul (Matrix4x4.RotationZRadians z))) :=
  ⟨fun _ => rfl, fun _ => rfl, fun _ => rfl, fun _ _ => rfl,
   fun _ _ _ _ => rfl, fun _ _ _ => rfl, fun _ _ _ => rfl⟩

/-- Scaling a Vector3 scales its magnitude by the absolute factor. -/
lemma magnitude_smul (v : Vector3) (c : Real) :
    (v.smul c).Magnitude = |c| * v.Magnitude := by
  simp only [Vector3.Magnitude, Vector3.MagnitudeSquared, Vector3.smul]
  have h : v.x * c * (v.x * c) + v.y * c * (v.y * c) + v.z * c * (v.z * c)
      = c * c * (v.x * v.x + v.y * v.y + v.z * v.z) := by ring
  rw [h, Real.sqrt_mul (mul_self_nonneg c), Real.sqrt_mul_self_eq_abs]

/-- Scaling a Vector3 of positive magnitude by its reciprocal magnitude
yields a unit vector. -/
lemma magnitude_smul_inv (v : Vector3) (hv : 0 < v.Magnitude) :
    (v.smul (1 / v.Magnitude)).Magnitude = 1 := by
  rw [magnitude_smul, abs_of_pos (div_pos one_pos hv), one_div,
    inv_mul_cancel₀ hv.ne']

/-- C7: Quaternion::Quaternion(const Matrix4x4&) returns the canonical
identity quaternion exactly when some axis-row magnitude is at or below
the near-zero threshold; otherwise it applies the trace-based extraction
to the three rows rescaled to unit length, taking the trace-dominant
branch exactly when `xAxis.x + yAxis.y + zAxis.z + 1 > 1`. -/
theorem C7_matrix_to_quaternion (mat : Matrix4x4) :
    (Quaternion.degenerateScale mat → Quaternion.ofMatrix mat = ⟨0, 0, 0, 1⟩) ∧
    (¬ Quaternion.degenerateScale mat →
       Quaternion.ofMatrix mat =
         Quaternion.fromAxes
           (Vector3.smul ⟨mat.r0.x, mat.r0.y, mat.r0.z⟩
             (1 / Vector3.Magnitude ⟨mat.r0.x, mat.r0.y, mat.r0.z⟩))
           (Vector3.smul ⟨mat.r1.x, mat.r1.y, mat.r1.z⟩
             (1 / Vector3.Magnitude ⟨mat.r1.x, mat.r1.y, mat.r1.z⟩))
           (Vector3.smul ⟨mat.r2.x, mat.r2.y, mat.r2.z⟩
             (1 / Vector3.Magnitude ⟨mat.r2.x, mat.r2.y, mat.r2.z⟩)) ∧
       (Vector3.smul ⟨mat.r0.x, mat.r0.y, mat.r0.z⟩
         (1 / Vector3.Magnitude ⟨mat.r0.x, mat.r0.y, mat.r0.z⟩)).Magnitude = 1 ∧
       (Vector3.smul ⟨mat.r1.x, mat.r1.y, mat.r1.z⟩
         (1 / Vector3.Magnitude ⟨mat.r1.x, mat.r1.y, mat.r1.z⟩)).Magnitude = 1 ∧
       (Vector3.smul ⟨mat.r2.x, mat.r2.y, mat.r2.z⟩
         (1 / Vector3.Magnitude ⟨mat.r2.x, mat.r2.y, mat.r2.z⟩)).Magnitude = 1) ∧
    (∀ xA yA zA : Vector3,
       (1 < xA.x + yA.y + zA.z + 1 →
          Quaternion.fromAxes xA yA zA = Quaternion.traceDominant xA yA zA) ∧
       (¬ 1 < xA.x + yA.y + zA.z + 1 →
          Quaternion.fromAxes xA yA zA = Quaternion.diagDominant xA yA zA)) := by
  have hepspos : (0 : Real) < FloatEpsilon := by
    unfold FloatEpsilon
    norm_num
  refine ⟨fun h => ?_, fun h => ?_, fun xA yA zA => ⟨fun h => ?_, fun h => ?_⟩⟩
  · simp only [Quaternion.ofMatrix]
    rw [if_pos h]
  · have hmag : FloatEpsilon < Vector3.Magnitude ⟨mat.r0.x, mat.r0.y, mat.r0.z⟩ ∧
        FloatEpsilon < Vector3.Magnitude ⟨mat.r1.x, mat.r1.y, mat.r1.z⟩ ∧
        FloatEpsilon < Vector3.Magnitude ⟨mat.r2.x, mat.r2.y, mat.r2.z⟩ := by
      unfold Quaternion.degenerateScale at h
      push_neg at h
      exact h
    refine ⟨?_, ?_, ?_, ?_⟩
    · simp only [Quaternion.ofMatrix]
      rw [if_neg h]
    · exact magnitude_smul_inv _ (lt_trans hepspos hmag.1)
    · exact magnitude_smul_inv _ (lt_trans hepspos hmag.2.1)
    · exact magnitude_smul_inv _ (lt_trans hepspos hmag.2.2)
  · unfold Quaternion.fromAxes
    rw [if_pos h]
  · unfold Quaternion.fromAxes
    rw [if_neg h]

/-- C7 witness: the all-zero matrix is degenerate and extracts to the
canonical identity quaternion. -/
theorem C7_matrix_to_quaternion_witness :
    Quaternion.ofMatrix
        ⟨⟨0, 0, 0, 0⟩, ⟨0, 0, 0, 0⟩, ⟨0, 0, 0, 0⟩, ⟨0, 0, 0, 0⟩⟩ =
      ⟨0, 0, 0, 1⟩ := by
  refine (C7_matrix_to_quaternion _).1 ?_
  unfold Quaternion.degenerateScale
  left
  simp only [Vector3.Magnitude, Vector3.MagnitudeSquared]
  rw [show (0 : Real) * 0 + 0 * 0 + 0 * 0 = 0 by ring, Real.sqrt_zero]
  unfold FloatEpsilon
  norm_num

/-- Square root of 64/25 is 8/5. -/
lemma sqrt_sixtyfour_div : Real.sqrt (64 / 25) = 8 / 5 := by
  rw [show (64 / 25 : Real) = (8 / 5) ^ 2 by norm_num]
  exact Real.sqrt_sq (by norm_num)

/-- The concrete rotation-only matrix built from the unit quaternion
(0, 3/5, 0, 4/5). -/
lemma ofQuaternion_y_rotation :
    Matrix4x4.ofQuaternion ⟨0, 3 / 5, 0, 4 / 5⟩ =
      ⟨⟨7 / 25, 0, -(24 / 25), 0⟩, ⟨0, 1, 0, 0⟩,
       ⟨24 / 25, 0, 7 / 25, 0⟩, ⟨0, 0, 0, 1⟩⟩ := by
  simp only [Matrix4x4.ofQuaternion]
  ext <;> norm_num

/-- Unit magnitude of the first row of the concrete matrix. -/
lemma mag_row0 : Vector3.Magnitude ⟨7 / 25, 0, -(24 / 25)⟩ = 1 := by
  norm_num [Vector3.Magnitude, Vector3.MagnitudeSquared, Real.sqrt_one]

/-- Unit magnitude of the second row of the concrete matrix. -/
lemma mag_row1 : Vector3.Magnitude ⟨0, 1, 0⟩ = 1 := by
  norm_num [Vector3.Magnitude, Vector3.MagnitudeSquared, Real.sqrt_one]

/-- Unit magnitude of the third row of the concrete matrix. -/
lemma mag_row2 : Vector3.Magnitude ⟨24 / 25, 0, 7 / 25⟩ = 1 := by
  norm_num [Vector3.Magnitude, Vector3.MagnitudeSquared, Real.sqrt_one]

/-- C1: evaluation of the full matrix round trip at the unit quaternion
q = (0, 3/5, 0, 4/5) (a pure rotation about Y, so the matrix is
rotation-only and non-degenerately scaled): the reconstruction returns
(0, 0, 3/5, 4/5) — the y and z components exchanged — which is neither
q nor -q within Epsilon. The trace-dominant branch assigns the
off-diagonal difference `m01 - m10` (the standard z numerator) to the
y slot and `m20 - m02` (the standard y numerator) to the z slot. -/
theorem C1_roundtrip_eval :
    Quaternion.SquareSum ⟨0, 3 / 5, 0, 4 / 5⟩ = 1 ∧
    Quaternion.ofMatrix (Matrix4x4.ofQuaternion ⟨0, 3 / 5, 0, 4 / 5⟩) =
      ⟨0, 0, 3 / 5, 4 / 5⟩ ∧
    ¬ Quaternion.closeWithin ⟨0, 0, 3 / 5, 4 / 5⟩ ⟨0, 3 / 5, 0, 4 / 5⟩
        Quaternion.Epsilon ∧
    ¬ Quaternion.closeWithin ⟨0, 0, 3 / 5, 4 / 5⟩
        (Quaternion.neg ⟨0, 3 / 5, 0, 4 / 5⟩) Quaternion.Epsilon := by
  have hnd : ¬ Quaternion.degenerateScale
      ⟨⟨7 / 25, 0, -(24 / 25), 0⟩, ⟨0, 1, 0, 0⟩,
       ⟨24 / 25, 0, 7 / 25, 0⟩, ⟨0, 0, 0, 1⟩⟩ := by
    unfold Quaternion.degenerateScale
    rw [mag_row0, mag_row1, mag_row2]
    unfold FloatEpsilon
    norm_num
  refine ⟨?_, ?_, fun h => ?_, fun h => ?_⟩
  · unfold Quaternion.SquareSum
    norm_num
  · rw [ofQuaternion_y_rotation]
    simp only [Quaternion.ofMatrix]
    rw [if_neg hnd]
    rw [mag_row0, mag_row1, mag_row2]
    have hsm0 : Vector3.smul ⟨7 / 25, 0, -(24 / 25)⟩ (1 / 1) =
        (⟨7 / 25, 0, -(24 / 25)⟩ : Vector3) := by
      unfold Vector3.smul
      ext <;> norm_num
    have hsm1 : Vector3.smul ⟨0, 1, 0⟩ (1 / 1) = (⟨0, 1, 0⟩ : Vector3) := by
      unfold Vector3.smul
      ext <;> norm_num
    have hsm2 : Vector3.smul ⟨24 / 25, 0, 7 / 25⟩ (1 / 1) =
        (⟨24 / 25, 0, 7 / 25⟩ : Vector3) := by
      unfold Vector3.smul
      ext <;> norm_num
    rw [hsm0, hsm1, hsm2]
    unfold Quaternion.fromAxes
    rw [if_pos (by norm_num)]
    unfold Quaternion.traceDominant
    simp only
    rw [show (7 / 25 : Real) + 1 + 7 / 25 + 1 = 64 / 25 by norm_num,
      sqrt_sixtyfour_div]
    ext <;> norm_num
  · rcases h with ⟨-, h2, -, -⟩
    unfold Quaternion.Epsilon FloatEpsilon at h2
    simp only at h2
    rw [abs_of_nonpos (by norm_num)] at h2
    norm_num at h2
  · rcases h with ⟨-, h2, -, -⟩
    unfold Quaternion.neg Quaternion.Epsilon FloatEpsilon at h2
    simp only at h2
    rw [abs_of_nonneg (by norm_num)] at h2
    norm_num at h2

end XoMath
